/-
  Verification of the Creative-Uploader media pipeline.

  Shallow embedding of the size catalogs and classification logic
  (src/constants.py, src/image_processing.py), the video transcode and
  upload retry loops (src/video_processing.py), and the credential
  refresh path (src/moloco_client.py).  External effects (ffmpeg runs,
  file sizes on disk, HTTP outcomes) are abstracted as oracle
  parameters; all byte-size comparisons in the Python source divide by
  1024 in double precision, which is exact, so sizes are modelled as
  natural numbers of bytes with the 500 KB budget as 512000 bytes.
-/
import Mathlib

namespace CreativeUploader

/-! ### Size catalogs (src/constants.py) -/

/-- The nine standard IMAGE sizes (`VALID_IMAGE_SIZES`). -/
def VALID_IMAGE_SIZES : List (Nat × Nat) :=
  [(300, 250), (320, 480), (320, 50), (728, 90),
   (480, 320), (768, 1024), (1024, 768), (300, 50), (468, 60)]

/-- The six NATIVE sizes (`VALID_NATIVE_SIZES`). -/
def VALID_NATIVE_SIZES : List (Nat × Nat) :=
  [(1200, 628), (1200, 600), (720, 720), (720, 960), (720, 1280), (1200, 1600)]

/-- `is_valid_image_dimension` from src/constants.py. -/
def is_valid_image_dimension (w h : Nat) : Bool :=
  decide ((w, h) ∈ VALID_IMAGE_SIZES)

/-- `is_valid_native_dimension` from src/constants.py. -/
def is_valid_native_dimension (w h : Nat) : Bool :=
  decide ((w, h) ∈ VALID_NATIVE_SIZES)

/-- Creative type classification values used by `prepare_image_for_upload`. -/
inductive CreativeType where
  | IMAGE
  | NATIVE
  | IMAGE_SOURCE
  | UNKNOWN
deriving DecidableEq, Repr

/-! ### Retina detection (src/image_processing.py, detect_retina_size) -/

/-- The `labels` dictionary inside `detect_retina_size`, with its
`.get` fallback to a `WxH` string. -/
def sizeLabel : Nat × Nat → String
  | (300, 250) => "Medium Rectangle"
  | (320, 480) => "Portrait Interstitial"
  | (320, 50) => "Mobile Banner"
  | (728, 90) => "Leaderboard"
  | (480, 320) => "Landscape Interstitial"
  | (768, 1024) => "Tablet Portrait"
  | (1024, 768) => "Tablet Landscape"
  | (300, 50) => "Mobile Banner Small"
  | (468, 60) => "Banner"
  | (1200, 628) => "Native Landscape"
  | (1200, 600) => "Native Landscape Alt"
  | (720, 720) => "Native Square"
  | (720, 960) => "Native Portrait 3:4"
  | (720, 1280) => "Native Portrait"
  | (1200, 1600) => "Native Portrait Large"
  | p => toString p.1 ++ "x" ++ toString p.2

/-- `all_sizes = list(VALID_IMAGE_SIZES) + list(VALID_NATIVE_SIZES)`. -/
def allSizes : List (Nat × Nat) := VALID_IMAGE_SIZES ++ VALID_NATIVE_SIZES

/-- The scale loop bounds of `detect_retina_size`: `for scale in [2, 3, 4]`. -/
def retinaScales : List Nat := [2, 3, 4]

/-- The acceptance test inside `detect_retina_size`:
`abs(w - tw * scale) <= 5 and abs(h - th * scale) <= 5`. -/
def retinaMatchAt (w h tw th s : Nat) : Bool :=
  decide (((w : Int) - tw * s).natAbs ≤ 5) && decide (((h : Int) - th * s).natAbs ≤ 5)

/-- The dictionary returned by `detect_retina_size` on a match. -/
structure RetinaMatch where
  target_w : Nat
  target_h : Nat
  scale : Nat
  label : String
  creative_type : CreativeType
deriving DecidableEq, Repr

/-- `detect_retina_size` from src/image_processing.py: scan scales 2, 3, 4
in ascending order, and within each scale scan the combined catalog,
returning the first entry within the ±5 pixel tolerance. -/
def detect_retina_size (w h : Nat) : Option RetinaMatch :=
  retinaScales.findSome? fun s =>
    (allSizes.find? fun e => retinaMatchAt w h e.1 e.2 s).map fun e =>
      { target_w := e.1, target_h := e.2, scale := s, label := sizeLabel e,
        creative_type :=
          if (e ∈ VALID_IMAGE_SIZES : Bool) then CreativeType.IMAGE else CreativeType.NATIVE }

/-! ### Image compression (src/image_processing.py, compress_image) -/

/-- File paths produced by the image pipeline: the original input file,
the `{base}_{tw}x{th}.jpg` retina-downscale sibling, and the
`{base}_compressed.jpg` sibling of a given source. -/
inductive MPath where
  | orig
  | resized (tw th : Nat)
  | compressed (src : MPath)
deriving DecidableEq, Repr

/-- The ffmpeg `-q:v` value for a loop quality level:
`max(2, int(31 - quality * 0.3))`.  For the qualities used (multiples
of ten) the double-precision product rounds to the exact integer, so
this equals `max 2 (31 - 3 * q / 10)`. -/
def qvOf (q : Nat) : Nat := max 2 (31 - 3 * q / 10)

/-- Oracle for ffmpeg compression runs: byte size of the file written at
the compressed path when invoked with a given `-q:v` value. -/
structure CompressOracle where
  attemptBytes : Nat → Nat

/-- `range(90, 40, -10)`: the quality levels tried, high to low. -/
def compressQualities : List Nat := [90, 80, 70, 60, 50]

/-- The quality-reduction loop of `compress_image` followed by the
last-resort `-q:v 25` run: return at the first attempt whose output is
within the byte budget, else run the final maximum-compression attempt
and return its output regardless of size. -/
def compressLoop (o : CompressOracle) (cp : MPath) (maxBytes : Nat) :
    List Nat → MPath × Nat
  | [] => (cp, o.attemptBytes 25)
  | q :: rest =>
    let b := o.attemptBytes (qvOf q)
    if b ≤ maxBytes then (cp, b) else compressLoop o cp maxBytes rest

/-- `compress_image` from src/image_processing.py.  Takes the current
byte size of the input file; returns the resulting path and its byte
size (the caller re-reads the size of the returned path). -/
def compress_image (o : CompressOracle) (p : MPath) (bytes maxKb : Nat) : MPath × Nat :=
  if bytes ≤ maxKb * 1024 then (p, bytes)
  else compressLoop o (MPath.compressed p) (maxKb * 1024) compressQualities

/-! ### Image normalization (src/image_processing.py, prepare_image_for_upload) -/

/-- The report dictionary returned by `prepare_image_for_upload`.
Dimension strings are kept as numbers; `size_kb` is kept as the exact
byte count `size_bytes`. -/
structure NormReport where
  original_path : MPath
  corrected_path : MPath
  original_w : Nat
  original_h : Nat
  corrected_w : Nat
  corrected_h : Nat
  size_bytes : Nat
  creative_type : CreativeType
  was_retina : Bool
  was_compressed : Bool
  warnings : List String
  upload_ready : Bool
deriving DecidableEq, Repr

/-- Oracle for the external effects of `prepare_image_for_upload`:
the byte size of the retina-downscaled sibling file written by ffmpeg,
and the compression oracle used by `compress_image`. -/
structure PrepOracle where
  resizedBytes : Nat
  compress : CompressOracle

/-- Warning emitted when a retina image is downscaled. -/
def retinaWarning (w h : Nat) (r : RetinaMatch) : String :=
  "Detected " ++ toString r.scale ++ "x retina image (" ++ toString w ++ "x" ++
    toString h ++ ") - resizing to " ++ toString r.target_w ++ "x" ++
    toString r.target_h ++ " (" ++ r.label ++ ")"

/-- Warning emitted for a non-catalog size that is large enough to serve
as source material. -/
def sourceWarning (w h : Nat) : String :=
  "Dimensions " ++ toString w ++ "x" ++ toString h ++
    " are not a standard Moloco size, but large enough to use as source material - will letterbox-resize to all 9 IMAGE sizes."

/-- Warning emitted for a non-catalog size that is too small for source. -/
def tooSmallWarning (w h : Nat) : String :=
  "Dimensions " ++ toString w ++ "x" ++ toString h ++
    " are not a standard Moloco size and too small for source. Valid IMAGE sizes listed."

/-- Warning emitted before compressing an over-budget file. -/
def compressingWarning : String := "File is over 500KB (max 500KB) - compressing"

/-- Warning emitted when compression could not reach the budget. -/
def stillOverWarning : String :=
  "WARNING: Still over 500KB after compression - upload may be rejected"

/-- `prepare_image_for_upload` from src/image_processing.py, with file
probing and ffmpeg effects supplied by the oracle: retina downscale,
classification, conditional compression, and report assembly. -/
def prepare_image_for_upload (o : PrepOracle) (w h bytes : Nat) : NormReport :=
  let retina := detect_retina_size w h
  let w1 := match retina with | some r => r.target_w | none => w
  let h1 := match retina with | some r => r.target_h | none => h
  let p1 := match retina with | some r => MPath.resized r.target_w r.target_h | none => MPath.orig
  let b1 := match retina with | some _ => o.resizedBytes | none => bytes
  let warn1 : List String := match retina with | some r => [retinaWarning w h r] | none => []
  let isImg := is_valid_image_dimension w1 h1
  let isNativeDim := is_valid_native_dimension w1 h1
  let isSource := decide (640 ≤ w1) && decide (640 ≤ h1)
  let warnDim : List String :=
    if !isImg && !isNativeDim then
      if isSource then [sourceWarning w1 h1] else [tooSmallWarning w1 h1]
    else []
  let needCompress := decide (512000 < b1) && (isImg || isNativeDim)
  let comp := compress_image o.compress p1 b1 500
  let p2 := if needCompress then comp.1 else p1
  let b2 := if needCompress then comp.2 else b1
  let warnComp : List String :=
    if needCompress then
      if decide (512000 < comp.2) then [compressingWarning, stillOverWarning]
      else [compressingWarning]
    else []
  { original_path := MPath.orig
    corrected_path := p2
    original_w := w
    original_h := h
    corrected_w := w1
    corrected_h := h1
    size_bytes := b2
    creative_type :=
      if isImg then CreativeType.IMAGE
      else if isNativeDim then CreativeType.NATIVE
      else if isSource then CreativeType.IMAGE_SOURCE
      else CreativeType.UNKNOWN
    was_retina := retina.isSome
    was_compressed := decide (p2 ≠ MPath.orig) || decide (b2 ≠ bytes)
    warnings := warn1 ++ warnDim ++ warnComp
    upload_ready := decide (b2 ≤ 512000) }

/-- The byte ceiling applied by the pipeline to each detected image
category: 500 KB (`max_size_kb` in CREATIVE_SPECS, and the uniform
budget used by `prepare_image_for_upload`). -/
def sizeCeilingBytes : CreativeType → Nat := fun _ => 512000

/-! ### Video transcode (src/video_processing.py, transcode_video_to_native) -/

/-- Outcome of one ffmpeg transcode run at a given CRF: the process
errored (`subprocess` raises under `check=True`), or it wrote the
output file with the given byte size. -/
inductive EncOutcome where
  | error
  | output (bytes : Nat)
deriving DecidableEq, Repr

/-- Oracle for the transcode attempts, keyed by CRF value. -/
structure VidOracle where
  attempt : Nat → EncOutcome

/-- The progressive CRF ladder `(23, 28, 33, 38)`. -/
def crfLevels : List Nat := [23, 28, 33, 38]

/-- Observable outcome of `transcode_video_to_native`: the returned
value (byte size of the accepted output, or `none`), the contents of
the output path after the call (`none` once unlinked), and the CRF
levels actually attempted, in order. -/
structure TranscodeRun where
  result : Option Nat
  fileBytes : Option Nat
  attempted : List Nat
deriving DecidableEq, Repr

/-- The CRF loop of `transcode_video_to_native`: accept the first
attempt within budget; on an encoder error break out (`break`) and fall
through to the unlink; after exhausting all levels unlink the oversized
last output. -/
def transcodeLoop (o : VidOracle) (maxBytes : Nat) : List Nat → TranscodeRun
  | [] => { result := none, fileBytes := none, attempted := [] }
  | crf :: rest =>
    match o.attempt crf with
    | EncOutcome.error => { result := none, fileBytes := none, attempted := [crf] }
    | EncOutcome.output b =>
      if b ≤ maxBytes then { result := some b, fileBytes := some b, attempted := [crf] }
      else
        let r := transcodeLoop o maxBytes rest
        { result := r.result, fileBytes := r.fileBytes, attempted := crf :: r.attempted }

/-- `transcode_video_to_native` from src/video_processing.py with
`max_bytes = max_size_mb * 1024 * 1024`. -/
def transcode_video_to_native (o : VidOracle) (maxSizeMb : Nat) : TranscodeRun :=
  transcodeLoop o (maxSizeMb * 1024 * 1024) crfLevels

/-! ### GCS upload retry loop (src/video_processing.py, _upload_file_to_gcs) -/

/-- Outcome of one upload attempt (slot request, then byte transfer):
success with the session asset url, a failure classified transient by
the `502/503/timeout` substring test, or any other failure. -/
inductive UploadOutcome where
  | ok (url : String)
  | failTransient
  | failFatal
deriving DecidableEq, Repr

/-- Result of `_upload_file_to_gcs`: the asset url, a raised exception,
or the implicit `None` when the `range(retries)` loop body never runs. -/
inductive GcsResult where
  | succeeded (url : String)
  | raised
  | exhausted
deriving DecidableEq, Repr

/-- Observable outcome of `_upload_file_to_gcs`: the result, the number
of upload-slot requests made (one per loop iteration), and the backoff
sleeps performed, in seconds and in order. -/
structure UploadRun where
  result : GcsResult
  slotRequests : Nat
  sleeps : List Nat
deriving DecidableEq, Repr

/-- The retry loop of `_upload_file_to_gcs`: each iteration requests a
fresh slot; a transient failure before the last attempt sleeps
`2 ** attempt` seconds and continues; any other failure re-raises.
`fuel` is the number of remaining iterations of `range(retries)`. -/
def uploadGo (o : Nat → UploadOutcome) (retries : Nat) : Nat → Nat → UploadRun
  | _, 0 => { result := GcsResult.exhausted, slotRequests := 0, sleeps := [] }
  | attempt, fuel + 1 =>
    match o attempt with
    | UploadOutcome.ok url => { result := GcsResult.succeeded url, slotRequests := 1, sleeps := [] }
    | UploadOutcome.failTransient =>
      if attempt < retries - 1 then
        let r := uploadGo o retries (attempt + 1) fuel
        { result := r.result, slotRequests := r.slotRequests + 1, sleeps := 2 ^ attempt :: r.sleeps }
      else { result := GcsResult.raised, slotRequests := 1, sleeps := [] }
    | UploadOutcome.failFatal => { result := GcsResult.raised, slotRequests := 1, sleeps := [] }

/-- `_upload_file_to_gcs` from src/video_processing.py. -/
def upload_file_to_gcs (o : Nat → UploadOutcome) (retries : Nat) : UploadRun :=
  uploadGo o retries 0 retries

/-! ### Endcard extraction (src/video_processing.py, extract_endcard_from_video) -/

/-- Outcome of the duration probe: `ffprobe` exited 0 and its output
parsed as the given float (modelled as a rational), or it exited
non-zero (the code then uses duration 0), or it exited 0 with
unparseable output (`float(...)` raises inside the `try`). -/
inductive ProbeOutcome where
  | ok (d : ℚ)
  | failCode
  | parseError
deriving DecidableEq, Repr

/-- Outcome of the ffmpeg frame-grab command: it raised, it wrote the
output file with the given byte size, or it exited without producing
the file. -/
inductive ExtractOutcome where
  | raised
  | wrote (bytes : Nat)
  | noFile
deriving DecidableEq, Repr

/-- Oracle for `extract_endcard_from_video`: the probe outcome and the
frame-grab outcome as a function of the seek argument passed to ffmpeg
(`some t` for the `-ss t` command, `none` for the first-frame command). -/
structure EndcardOracle where
  probe : ProbeOutcome
  extractAt : Option ℚ → ExtractOutcome

/-- The seek argument chosen from the probed duration: `-ss max(0, duration - 1.0)`
when `duration > 1`, otherwise the first-frame command. -/
def seekArg (d : ℚ) : Option ℚ :=
  if 1 < d then some (max 0 (d - 1)) else none

/-- The timestamp of the frame a given command grabs: the seek time, or
0 for the first-frame command. -/
def cmdTimestamp : Option ℚ → ℚ
  | some t => t
  | none => 0

/-- The frame grab and the `isfile`/`getsize > 0` check at the end of
the `try` block; both failure shapes yield `none`. -/
def runExtract (o : EndcardOracle) (duration : ℚ) : Option Nat :=
  match o.extractAt (seekArg duration) with
  | ExtractOutcome.raised => none
  | ExtractOutcome.noFile => none
  | ExtractOutcome.wrote b => if 0 < b then some b else none

/-- `extract_endcard_from_video` from src/video_processing.py: returns
the byte size of the extracted endcard (standing for its path), or
`none` on any failure.  A non-zero probe exit yields duration 0; an
unparseable probe output raises inside the `try` and yields `none`. -/
def extract_endcard_from_video (o : EndcardOracle) : Option Nat :=
  match o.probe with
  | ProbeOutcome.parseError => none
  | ProbeOutcome.failCode => runExtract o 0
  | ProbeOutcome.ok d => runExtract o d

/-! ### Credential refresh (src/moloco_client.py, ensure_authenticated)

`ensure_authenticated` acquires `_auth_lock` only around the validity
check and releases it before performing the token request.  Each caller
is therefore a sequence of two atomic actions: the locked check, and
(when the check saw an invalid credential) the unconditional refresh.
A schedule interleaves these atomic actions of two callers. -/

/-- Progress of one `ensure_authenticated` caller. -/
inductive AuthPhase where
  | start
  | needRefresh
  | done
deriving DecidableEq, Repr

/-- The shared credential cell: whether it is currently valid (present
and more than 5 minutes from expiry) and how many token-issuance
network calls have been made. -/
structure AuthState where
  valid : Bool
  refreshes : Nat
deriving DecidableEq, Repr

/-- One atomic action of a caller: the check under the lock, which
decides to return or to refresh, or the refresh itself, performed after
the lock is released, which unconditionally issues a token. -/
def authStep (s : AuthState) : AuthPhase → AuthState × AuthPhase
  | AuthPhase.start =>
    if s.valid then (s, AuthPhase.done) else (s, AuthPhase.needRefresh)
  | AuthPhase.needRefresh =>
    ({ valid := true, refreshes := s.refreshes + 1 }, AuthPhase.done)
  | AuthPhase.done => (s, AuthPhase.done)

/-- Run a schedule over two callers: `false` steps caller 0, `true`
steps caller 1.  Returns the final shared state and both phases. -/
def runSched : List Bool → AuthState → AuthPhase → AuthPhase →
    AuthState × AuthPhase × AuthPhase
  | [], s, p0, p1 => (s, p0, p1)
  | c :: rest, s, p0, p1 =>
    if c then
      let r := authStep s p1
      runSched rest r.1 p0 r.2
    else
      let r := authStep s p0
      runSched rest r.1 r.2 p1

/-! ### Concrete oracles used to instantiate the theorems -/

/-- A benign oracle: every external run produces a tiny file. -/
def prepOracleW : PrepOracle :=
  { resizedBytes := 0, compress := { attemptBytes := fun _ => 0 } }

/-- An oracle whose compression attempts all stay over the 500 KB budget. -/
def prepOracleBig : PrepOracle :=
  { resizedBytes := 0, compress := { attemptBytes := fun _ => 600000 } }

/-- A compression oracle whose attempts all stay over budget. -/
def compressOracleBig : CompressOracle := { attemptBytes := fun _ => 600000 }

/-- A transcode oracle whose first attempt is already within budget. -/
def vidOracleOk : VidOracle := { attempt := fun _ => EncOutcome.output 5 }

/-- A transcode oracle whose attempts all exceed a 10 MB budget. -/
def vidOracleBig : VidOracle := { attempt := fun _ => EncOutcome.output 99999999 }

/-- A transcode oracle whose first attempt errors. -/
def vidOracleErr : VidOracle :=
  { attempt := fun c => if c = 23 then EncOutcome.error else EncOutcome.output 5 }

/-- An endcard oracle: the probe reports 8 seconds, every frame grab raises. -/
def endcardOracleW : EndcardOracle :=
  { probe := ProbeOutcome.ok 8, extractAt := fun _ => ExtractOutcome.raised }

/-! ### Helper lemmas -/

/-- No exact catalog size is itself within the ±5 retina tolerance of an
integer multiple of a catalog size, so retina detection rejects it. -/
lemma detect_none_of_catalog : ∀ p ∈ allSizes, detect_retina_size p.1 p.2 = none := by
  decide

/-- The standard and native catalogs are disjoint. -/
lemma native_not_image : ∀ p ∈ VALID_NATIVE_SIZES, is_valid_image_dimension p.1 p.2 = false := by
  decide

/-- With no retina match, an exactly valid size, and a byte size within
budget, normalization leaves the path alone and emits no warnings. -/
lemma prepare_compliant (o : PrepOracle) (w h bytes : Nat)
    (hd : detect_retina_size w h = none)
    (hv : is_valid_image_dimension w h = true ∨ is_valid_native_dimension w h = true)
    (hb : bytes ≤ 512000) :
    (prepare_image_for_upload o w h bytes).corrected_path = MPath.orig ∧
    (prepare_image_for_upload o w h bytes).warnings = [] := by
  have h1 : decide (512000 < bytes) = false := decide_eq_false (Nat.not_lt.2 hb)
  simp only [prepare_image_for_upload, hd, h1, Bool.false_and]
  rcases hv with hv | hv <;> simp [hv]

/-- With no retina match and a standard size, normalization classifies
IMAGE and reports no retina. -/
lemma prepare_image_type (o : PrepOracle) (w h bytes : Nat)
    (hd : detect_retina_size w h = none)
    (himg : is_valid_image_dimension w h = true) :
    (prepare_image_for_upload o w h bytes).creative_type = CreativeType.IMAGE ∧
    (prepare_image_for_upload o w h bytes).was_retina = false := by
  simp [prepare_image_for_upload, hd, himg]

/-- With no retina match and a native size, normalization classifies
NATIVE and reports no retina. -/
lemma prepare_native_type (o : PrepOracle) (w h bytes : Nat)
    (hd : detect_retina_size w h = none)
    (himg : is_valid_image_dimension w h = false)
    (hnat : is_valid_native_dimension w h = true) :
    (prepare_image_for_upload o w h bytes).creative_type = CreativeType.NATIVE ∧
    (prepare_image_for_upload o w h bytes).was_retina = false := by
  simp [prepare_image_for_upload, hd, himg, hnat]

/-- A retina match always targets an entry of the combined catalog. -/
lemma detect_some_target_mem (w h : Nat) (r : RetinaMatch)
    (hr : detect_retina_size w h = some r) :
    (r.target_w, r.target_h) ∈ allSizes := by
  rw [detect_retina_size] at hr
  simp only [retinaScales, List.findSome?_cons, List.findSome?_nil] at hr
  rcases h2 : allSizes.find? fun e => retinaMatchAt w h e.1 e.2 2 with _ | e2
  · rcases h3 : allSizes.find? fun e => retinaMatchAt w h e.1 e.2 3 with _ | e3
    · rcases h4 : allSizes.find? fun e => retinaMatchAt w h e.1 e.2 4 with _ | e4
      · rw [h2, h3, h4] at hr; simp at hr
      · rw [h2, h3, h4] at hr; simp at hr
        obtain rfl := hr.symm
        simpa using List.mem_of_find?_eq_some h4
    · rw [h2, h3] at hr; simp at hr
      obtain rfl := hr.symm
      simpa using List.mem_of_find?_eq_some h3
  · rw [h2] at hr; simp at hr
    obtain rfl := hr.symm
    simpa using List.mem_of_find?_eq_some h2

/-- The quality-reduction loop returns the first attempt within budget,
and the final `-q:v 25` attempt when none is. -/
lemma compressLoop_eq (o : CompressOracle) (cp : MPath) (maxBytes : Nat) :
    ∀ qs : List Nat,
      compressLoop o cp maxBytes qs =
        (cp, match qs.find? (fun q => o.attemptBytes (qvOf q) ≤ maxBytes) with
             | some q => o.attemptBytes (qvOf q)
             | none => o.attemptBytes 25)
  | [] => rfl
  | q :: rest => by
    simp only [compressLoop, List.find?]
    by_cases hb : o.attemptBytes (qvOf q) ≤ maxBytes
    · simp [hb]
    · simp only [show decide (o.attemptBytes (qvOf q) ≤ maxBytes) = false from
        decide_eq_false hb, if_neg hb]
      exact compressLoop_eq o cp maxBytes rest

/-- A prefix of over-budget transcode attempts just accumulates in the
attempt log and defers to the remaining levels. -/
lemma transcodeLoop_over (o : VidOracle) (mb : Nat) (l₁ rest : List Nat)
    (hl : ∀ c ∈ l₁, ∃ b, o.attempt c = EncOutcome.output b ∧ mb < b) :
    transcodeLoop o mb (l₁ ++ rest) =
      { result := (transcodeLoop o mb rest).result,
        fileBytes := (transcodeLoop o mb rest).fileBytes,
        attempted := l₁ ++ (transcodeLoop o mb rest).attempted } := by
  induction l₁ with
  | nil => simp
  | cons c l ih =>
    obtain ⟨b, hb, hgt⟩ := hl c (by simp)
    rw [List.cons_append, transcodeLoop, hb]
    simp only [if_neg (by omega : ¬ b ≤ mb)]
    rw [ih (fun c' hc' => hl c' (by simp [hc']))]
    simp

/-! ### Claims -/

/-- Claim C1: for every (w, h) exactly equal to a standard catalog entry,
normalization classifies it IMAGE with `was_retina = false`; for every
native catalog entry it classifies NATIVE with `was_retina = false`,
whatever the byte size and external tool behavior. -/
theorem C1_classify_exact_catalog :
    ∀ (w h : Nat) (o : PrepOracle) (bytes : Nat),
      ((w, h) ∈ VALID_IMAGE_SIZES →
        (prepare_image_for_upload o w h bytes).creative_type = CreativeType.IMAGE ∧
        (prepare_image_for_upload o w h bytes).was_retina = false) ∧
      ((w, h) ∈ VALID_NATIVE_SIZES →
        (prepare_image_for_upload o w h bytes).creative_type = CreativeType.NATIVE ∧
        (prepare_image_for_upload o w h bytes).was_retina = false) := by
  intro w h o bytes
  constructor
  · intro hm
    exact prepare_image_type o w h bytes
      (detect_none_of_catalog (w, h) (List.mem_append_left _ hm)) (decide_eq_true hm)
  · intro hm
    exact prepare_native_type o w h bytes
      (detect_none_of_catalog (w, h) (List.mem_append_right _ hm))
      (native_not_image (w, h) hm) (decide_eq_true hm)

/-- Witness for C1 at the standard entry 300×250 and the native entry
1200×628. -/
theorem C1_witness :
    ((prepare_image_for_upload prepOracleW 300 250 1000).creative_type = CreativeType.IMAGE ∧
     (prepare_image_for_upload prepOracleW 300 250 1000).was_retina = false) ∧
    ((prepare_image_for_upload prepOracleW 1200 628 1000).creative_type = CreativeType.NATIVE ∧
     (prepare_image_for_upload prepOracleW 1200 628 1000).was_retina = false) :=
  ⟨(C1_classify_exact_catalog 300 250 prepOracleW 1000).1 (by decide),
   (C1_classify_exact_catalog 1200 628 prepOracleW 1000).2 (by decide)⟩

/-- Claim C2: a retina detection result always satisfies the ±5 tolerance test
for its entry and scale, the scale is in {2, 3, 4}, the entry is in the
combined catalog, and no smaller scale matches any entry (the
scale-ascending loop makes the smallest scale win); when detection
returns nothing, no scale/entry pair matches.  Moreover every catalog
entry scaled by 2, 3 or 4 is detected at exactly that entry and scale,
and adding 6 to the scaled width leaves that entry/scale tolerance test
unsatisfied. -/
theorem C2_retina_detection :
    (∀ w h : Nat, ∀ r : RetinaMatch,
      detect_retina_size w h = some r →
        r.scale ∈ retinaScales ∧
        (r.target_w, r.target_h) ∈ allSizes ∧
        retinaMatchAt w h r.target_w r.target_h r.scale = true ∧
        ∀ s ∈ retinaScales, s < r.scale →
          ∀ e ∈ allSizes, retinaMatchAt w h e.1 e.2 s = false) ∧
    (∀ w h : Nat, detect_retina_size w h = none →
        ∀ s ∈ retinaScales, ∀ e ∈ allSizes, retinaMatchAt w h e.1 e.2 s = false) ∧
    (∀ e ∈ allSizes, ∀ s ∈ retinaScales,
        (detect_retina_size (e.1 * s) (e.2 * s)).map
          (fun r => (r.target_w, r.target_h, r.scale)) = some (e.1, e.2, s)) ∧
    (∀ e ∈ allSizes, ∀ s ∈ retinaScales,
        retinaMatchAt (e.1 * s + 6) (e.2 * s) e.1 e.2 s = false) := by
  refine ⟨?_, ?_, by decide, by decide⟩
  · intro w h r hr
    rw [detect_retina_size] at hr
    simp only [retinaScales, List.findSome?_cons, List.findSome?_nil] at hr
    rcases h2 : allSizes.find? fun e => retinaMatchAt w h e.1 e.2 2 with _ | e2
    · rcases h3 : allSizes.find? fun e => retinaMatchAt w h e.1 e.2 3 with _ | e3
      · rcases h4 : allSizes.find? fun e => retinaMatchAt w h e.1 e.2 4 with _ | e4
        · rw [h2, h3, h4] at hr; simp at hr
        · rw [h2, h3, h4] at hr; simp at hr
          obtain rfl := hr.symm
          refine ⟨by simp [retinaScales], ?_, ?_, ?_⟩
          · simpa using List.mem_of_find?_eq_some h4
          · simpa using List.find?_some h4
          · intro s hs hlt e he
            have h2' := List.find?_eq_none.mp h2 e he
            have h3' := List.find?_eq_none.mp h3 e he
            simp only [Bool.not_eq_true] at h2' h3'
            simp only [retinaScales, List.mem_cons, List.not_mem_nil, or_false] at hs
            rcases hs with rfl | rfl | rfl
            · exact h2'
            · exact h3'
            · simp at hlt
      · rw [h2, h3] at hr; simp at hr
        obtain rfl := hr.symm
        refine ⟨by simp [retinaScales], ?_, ?_, ?_⟩
        · simpa using List.mem_of_find?_eq_some h3
        · simpa using List.find?_some h3
        · intro s hs hlt e he
          have h2' := List.find?_eq_none.mp h2 e he
          simp only [Bool.not_eq_true] at h2'
          simp only [retinaScales, List.mem_cons, List.not_mem_nil, or_false] at hs
          rcases hs with rfl | rfl | rfl
          · exact h2'
          · simp at hlt
          · simp at hlt
    · rw [h2] at hr; simp at hr
      obtain rfl := hr.symm
      refine ⟨by simp [retinaScales], ?_, ?_, ?_⟩
      · simpa using List.mem_of_find?_eq_some h2
      · simpa using List.find?_some h2
      · intro s hs hlt e he
        simp only [retinaScales, List.mem_cons, List.not_mem_nil, or_false] at hs
        rcases hs with rfl | rfl | rfl <;> simp at hlt
  · intro w h hr s hs e he
    rw [detect_retina_size] at hr
    simp only [retinaScales, List.findSome?_cons, List.findSome?_nil] at hr
    rcases h2 : allSizes.find? fun e => retinaMatchAt w h e.1 e.2 2 with _ | e2
    · rcases h3 : allSizes.find? fun e => retinaMatchAt w h e.1 e.2 3 with _ | e3
      · rcases h4 : allSizes.find? fun e => retinaMatchAt w h e.1 e.2 4 with _ | e4
        · have h2' := List.find?_eq_none.mp h2 e he
          have h3' := List.find?_eq_none.mp h3 e he
          have h4' := List.find?_eq_none.mp h4 e he
          simp only [Bool.not_eq_true] at h2' h3' h4'
          simp only [retinaScales, List.mem_cons, List.not_mem_nil, or_false] at hs
          rcases hs with rfl | rfl | rfl
          · exact h2'
          · exact h3'
          · exact h4'
        · rw [h2, h3, h4] at hr; simp at hr
      · rw [h2, h3] at hr; simp at hr
    · rw [h2] at hr; simp at hr

/-- Witness for C2: 600×500 is detected as 2× of 300×250 with the
smallest-scale guarantee; 7×7 is rejected and indeed matches nothing;
the scaled entry 300·2×250·2 maps back to its entry and scale; and
606×500 fails the tolerance test for entry 300×250 at scale 2. -/
theorem C2_witness :
    (2 ∈ retinaScales ∧ ((300 : Nat), (250 : Nat)) ∈ allSizes ∧
      retinaMatchAt 600 500 300 250 2 = true ∧
      ∀ s ∈ retinaScales, s < 2 → ∀ e ∈ allSizes, retinaMatchAt 600 500 e.1 e.2 s = false) ∧
    (∀ s ∈ retinaScales, ∀ e ∈ allSizes, retinaMatchAt 7 7 e.1 e.2 s = false) ∧
    (detect_retina_size (300 * 2) (250 * 2)).map
      (fun r => (r.target_w, r.target_h, r.scale)) = some (300, 250, 2) ∧
    retinaMatchAt (300 * 2 + 6) (250 * 2) 300 250 2 = false :=
  ⟨C2_retina_detection.1 600 500
      { target_w := 300, target_h := 250, scale := 2, label := "Medium Rectangle",
        creative_type := CreativeType.IMAGE } (by decide),
   C2_retina_detection.2.1 7 7 (by decide),
   C2_retina_detection.2.2.1 (300, 250) (by decide) 2 (by decide),
   C2_retina_detection.2.2.2 (300, 250) (by decide) 2 (by decide)⟩

/-- Claim C3: in every normalization report, `upload_ready` holds exactly when
the final byte size is at most the size ceiling of the detected
category, for every input and every resulting creative type. -/
theorem C3_upload_ready_iff :
    ∀ (o : PrepOracle) (w h bytes : Nat),
      (prepare_image_for_upload o w h bytes).upload_ready = true ↔
        (prepare_image_for_upload o w h bytes).size_bytes ≤
          sizeCeilingBytes (prepare_image_for_upload o w h bytes).creative_type := by
  intro o w h bytes
  rw [show sizeCeilingBytes (prepare_image_for_upload o w h bytes).creative_type = 512000
      from rfl]
  rw [show (prepare_image_for_upload o w h bytes).upload_ready
      = decide ((prepare_image_for_upload o w h bytes).size_bytes ≤ 512000) from rfl]
  exact ⟨of_decide_eq_true, decide_eq_true⟩

/-- Claim C4: normalizing an asset whose dimensions already sit exactly in the
standard or native catalog and whose byte size is already within the
500 KB budget returns the original path and an empty warning list. -/
theorem C4_idempotent_on_compliant :
    ∀ (w h : Nat), (w, h) ∈ allSizes → ∀ (o : PrepOracle) (bytes : Nat), bytes ≤ 512000 →
      (prepare_image_for_upload o w h bytes).corrected_path = MPath.orig ∧
      (prepare_image_for_upload o w h bytes).warnings = [] := by
  intro w h hm o bytes hb
  refine prepare_compliant o w h bytes (detect_none_of_catalog (w, h) hm) ?_ hb
  rcases List.mem_append.mp hm with hm' | hm'
  · exact Or.inl (decide_eq_true hm')
  · exact Or.inr (decide_eq_true hm')

/-- Witness for C4 at 300×250, 1000 bytes. -/
theorem C4_witness :
    (prepare_image_for_upload prepOracleW 300 250 1000).corrected_path = MPath.orig ∧
    (prepare_image_for_upload prepOracleW 300 250 1000).warnings = [] :=
  C4_idempotent_on_compliant 300 250 (by decide) prepOracleW 1000 (by decide)

/-- Claim C5: compression is a no-op within budget; above budget it walks the
quality levels high to low and returns the first attempt within budget,
falling back to the final maximum-compression attempt when all fail;
and when even that attempt is over budget, normalization still produces
a report carrying the shortfall warning with `upload_ready = false`. -/
theorem C5_budget_compression :
    (∀ (o : CompressOracle) (p : MPath) (bytes : Nat), bytes ≤ 512000 →
      compress_image o p bytes 500 = (p, bytes)) ∧
    (∀ (o : CompressOracle) (p : MPath) (bytes : Nat), 512000 < bytes →
      compress_image o p bytes 500 =
        (MPath.compressed p,
         match compressQualities.find? (fun q => o.attemptBytes (qvOf q) ≤ 512000) with
         | some q => o.attemptBytes (qvOf q)
         | none => o.attemptBytes 25)) ∧
    (∀ (o : CompressOracle) (p : MPath) (bytes : Nat), 512000 < bytes →
      (∀ q ∈ compressQualities, 512000 < o.attemptBytes (qvOf q)) →
      compress_image o p bytes 500 = (MPath.compressed p, o.attemptBytes 25)) ∧
    (∀ (po : PrepOracle) (w h bytes : Nat),
      detect_retina_size w h = none →
      (is_valid_image_dimension w h || is_valid_native_dimension w h) = true →
      512000 < bytes →
      512000 < (prepare_image_for_upload po w h bytes).size_bytes →
        stillOverWarning ∈ (prepare_image_for_upload po w h bytes).warnings ∧
        (prepare_image_for_upload po w h bytes).upload_ready = false) := by
  have hcomp : ∀ (o : CompressOracle) (p : MPath) (bytes : Nat), 512000 < bytes →
      compress_image o p bytes 500 =
        (MPath.compressed p,
         match compressQualities.find? (fun q => o.attemptBytes (qvOf q) ≤ 512000) with
         | some q => o.attemptBytes (qvOf q)
         | none => o.attemptBytes 25) := by
    intro o p bytes hb
    rw [compress_image, if_neg (by omega)]
    exact compressLoop_eq o (MPath.compressed p) (500 * 1024) compressQualities
  refine ⟨?_, hcomp, ?_, ?_⟩
  · intro o p bytes hb
    rw [compress_image, if_pos (by omega)]
  · intro o p bytes hb hall
    rw [hcomp o p bytes hb, List.find?_eq_none.mpr]
    intro q hq
    simpa using Nat.not_le.mpr (hall q hq)
  · intro po w h bytes hd hv hb hover
    have hnc : (decide (512000 < bytes) &&
        (is_valid_image_dimension w h || is_valid_native_dimension w h)) = true := by
      rw [decide_eq_true hb, hv]
      rfl
    simp only [prepare_image_for_upload, hd, hnc, if_pos] at hover ⊢
    refine ⟨?_, ?_⟩
    · simp [decide_eq_true hover]
    · simpa using Nat.not_le.mpr hover

/-- Witness for C5: a 1000-byte file is untouched; a 600000-byte file
with all attempts at 600000 bytes runs through to the final attempt,
and the 300×250 normalization report carries the shortfall warning with
`upload_ready = false`. -/
theorem C5_witness :
    compress_image compressOracleBig MPath.orig 1000 500 = (MPath.orig, 1000) ∧
    compress_image compressOracleBig MPath.orig 600000 500 =
      (MPath.compressed MPath.orig, 600000) ∧
    (stillOverWarning ∈ (prepare_image_for_upload prepOracleBig 300 250 600000).warnings ∧
     (prepare_image_for_upload prepOracleBig 300 250 600000).upload_ready = false) :=
  ⟨C5_budget_compression.1 compressOracleBig MPath.orig 1000 (by decide),
   C5_budget_compression.2.2.1 compressOracleBig MPath.orig 600000 (by decide)
     (fun q _ => by show (512000 : Nat) < 600000; decide),
   C5_budget_compression.2.2.2 prepOracleBig 300 250 600000 (by decide) (by decide)
     (by decide) (by decide)⟩

/-- Claim C6: the transcode ladder runs the four CRF levels in order, returns
the output as soon as an attempt fits the byte budget, aborts the whole
sequence on an encoder error, and after four over-budget attempts
deletes the last output and returns nothing. -/
theorem C6_transcode_ladder :
    ∀ (o : VidOracle) (msMb : Nat),
      (∀ l₁ c l₂, crfLevels = l₁ ++ c :: l₂ →
        (∀ c' ∈ l₁, ∃ b, o.attempt c' = EncOutcome.output b ∧ msMb * 1024 * 1024 < b) →
        (∀ b, o.attempt c = EncOutcome.output b → b ≤ msMb * 1024 * 1024 →
          transcode_video_to_native o msMb =
            { result := some b, fileBytes := some b, attempted := l₁ ++ [c] }) ∧
        (o.attempt c = EncOutcome.error →
          transcode_video_to_native o msMb =
            { result := none, fileBytes := none, attempted := l₁ ++ [c] })) ∧
      ((∀ c ∈ crfLevels, ∃ b, o.attempt c = EncOutcome.output b ∧ msMb * 1024 * 1024 < b) →
        transcode_video_to_native o msMb =
          { result := none, fileBytes := none, attempted := crfLevels }) := by
  intro o msMb
  constructor
  · intro l₁ c l₂ hsplit hover
    constructor
    · intro b hb hle
      rw [transcode_video_to_native, hsplit, transcodeLoop_over o _ l₁ (c :: l₂) hover]
      rw [transcodeLoop, hb]
      simp [hle]
    · intro herr
      rw [transcode_video_to_native, hsplit, transcodeLoop_over o _ l₁ (c :: l₂) hover]
      rw [transcodeLoop, herr]
  · intro hall
    have h := transcodeLoop_over o (msMb * 1024 * 1024) crfLevels [] hall
    rw [transcode_video_to_native]
    rw [List.append_nil] at h
    rw [h]
    simp [transcodeLoop]

/-- Witness for C6: a first-attempt success returns at CRF 23; a
first-attempt encoder error aborts with nothing attempted after CRF 23;
four over-budget attempts delete the output and return nothing. -/
theorem C6_witness :
    transcode_video_to_native vidOracleOk 10 =
      { result := some 5, fileBytes := some 5, attempted := [23] } ∧
    transcode_video_to_native vidOracleErr 10 =
      { result := none, fileBytes := none, attempted := [23] } ∧
    transcode_video_to_native vidOracleBig 10 =
      { result := none, fileBytes := none, attempted := crfLevels } :=
  ⟨((C6_transcode_ladder vidOracleOk 10).1 [] 23 [28, 33, 38] rfl
      (fun c' hc' => absurd hc' (List.not_mem_nil c'))).1 5 rfl (by decide),
   ((C6_transcode_ladder vidOracleErr 10).1 [] 23 [28, 33, 38] rfl
      (fun c' hc' => absurd hc' (List.not_mem_nil c'))).2 rfl,
   (C6_transcode_ladder vidOracleBig 10).2 (fun c _ => ⟨99999999, rfl, by decide⟩)⟩

/-- Claim C7: with 3 retries, the upload loop is fully characterized by the
first three attempt outcomes: success returns immediately with one slot
request per attempt made; a transient failure before the last attempt
sleeps 1 s then 2 s and requests a fresh slot; any non-transient failure
raises at once; no branch makes more than 3 attempts and no sleep
follows the final attempt. -/
theorem C7_upload_retry :
    ∀ o : Nat → UploadOutcome,
      upload_file_to_gcs o 3 =
        match o 0 with
        | UploadOutcome.ok url =>
          { result := GcsResult.succeeded url, slotRequests := 1, sleeps := [] }
        | UploadOutcome.failFatal =>
          { result := GcsResult.raised, slotRequests := 1, sleeps := [] }
        | UploadOutcome.failTransient =>
          match o 1 with
          | UploadOutcome.ok url =>
            { result := GcsResult.succeeded url, slotRequests := 2, sleeps := [1] }
          | UploadOutcome.failFatal =>
            { result := GcsResult.raised, slotRequests := 2, sleeps := [1] }
          | UploadOutcome.failTransient =>
            match o 2 with
            | UploadOutcome.ok url =>
              { result := GcsResult.succeeded url, slotRequests := 3, sleeps := [1, 2] }
            | _ => { result := GcsResult.raised, slotRequests := 3, sleeps := [1, 2] } := by
  intro o
  rcases h0 : o 0 with url0 | _ | _ <;> rcases h1 : o 1 with url1 | _ | _ <;>
      rcases h2 : o 2 with url2 | _ | _ <;>
    simp [upload_file_to_gcs, uploadGo, h0, h1, h2]

/-- Claim C8: a probed duration above 1 s seeks to duration − 1.0 s, otherwise
the first frame (timestamp 0) is grabbed; any failure of the ffmpeg
step, a missing or empty output, or an unparseable probe yields `none`
rather than raising; a successful grab returns the endcard. -/
theorem C8_endcard :
    ∀ (o : EndcardOracle) (d : ℚ),
      (1 < d → seekArg d = some (d - 1)) ∧
      (d ≤ 1 → seekArg d = none ∧ cmdTimestamp (seekArg d) = 0) ∧
      (o.probe = ProbeOutcome.ok d →
        (o.extractAt (seekArg d) = ExtractOutcome.raised ∨
         o.extractAt (seekArg d) = ExtractOutcome.noFile ∨
         o.extractAt (seekArg d) = ExtractOutcome.wrote 0) →
        extract_endcard_from_video o = none) ∧
      (o.probe = ProbeOutcome.parseError → extract_endcard_from_video o = none) ∧
      (o.probe = ProbeOutcome.ok d → ∀ b : Nat,
        o.extractAt (seekArg d) = ExtractOutcome.wrote b → 0 < b →
        extract_endcard_from_video o = some b) := by
  intro o d
  refine ⟨?_, ?_, ?_, ?_, ?_⟩
  · intro hd
    rw [seekArg, if_pos hd]
    congr 1
    exact max_eq_right (by linarith)
  · intro hd
    rw [seekArg, if_neg (not_lt.mpr hd)]
    exact ⟨rfl, rfl⟩
  · intro hp hfail
    simp only [extract_endcard_from_video, hp]
    rcases hfail with hf | hf | hf <;> simp [runExtract, hf]
  · intro hp
    simp only [extract_endcard_from_video, hp]
  · intro hp b hw hb
    simp only [extract_endcard_from_video, hp]
    simp [runExtract, hw, hb]

/-- Witness for C8: an 8 s video seeks to 7.0 s, a 0.6 s video grabs the
first frame at timestamp 0, and a raising frame grab yields `none`. -/
theorem C8_witness :
    seekArg 8 = some 7 ∧
    (seekArg (3 / 5) = none ∧ cmdTimestamp (seekArg (3 / 5)) = 0) ∧
    extract_endcard_from_video endcardOracleW = none := by
  refine ⟨?_, ?_, ?_⟩
  · rw [(C8_endcard endcardOracleW 8).1 (by norm_num)]
    norm_num
  · exact (C8_endcard endcardOracleW (3 / 5)).2.1 (by norm_num)
  · exact (C8_endcard endcardOracleW 8).2.2.1 rfl (Or.inl rfl)

/-- Claim C9: the credential refresh is not single-flight.  Two callers that
both pass the locked validity check while the token is expired — the
lock is released before the refresh — both perform the token-issuance
network call: the schedule check₀, check₁, refresh₀, refresh₁ ends with
both callers done and 2 refreshes, not the 1 the specification
requires. -/
theorem C9_duplicate_refresh :
    runSched [false, true, false, true]
        { valid := false, refreshes := 0 } AuthPhase.start AuthPhase.start =
      ({ valid := true, refreshes := 2 }, AuthPhase.done, AuthPhase.done) := by
  rfl

/-- Claim C10: whenever a normalization report has `was_retina = true`, the
corrected dimensions are exactly the matched catalog entry, which is
drawn from the combined catalog, so the creative type is IMAGE or
NATIVE — never IMAGE_SOURCE or UNKNOWN. -/
theorem C10_retina_lands_in_catalog :
    ∀ (o : PrepOracle) (w h bytes : Nat),
      (prepare_image_for_upload o w h bytes).was_retina = true →
      ∃ r, detect_retina_size w h = some r ∧
        (prepare_image_for_upload o w h bytes).corrected_w = r.target_w ∧
        (prepare_image_for_upload o w h bytes).corrected_h = r.target_h ∧
        (r.target_w, r.target_h) ∈ allSizes ∧
        ((prepare_image_for_upload o w h bytes).creative_type = CreativeType.IMAGE ∨
         (prepare_image_for_upload o w h bytes).creative_type = CreativeType.NATIVE) := by
  intro o w h bytes hret
  have hs : (detect_retina_size w h).isSome = true := hret
  obtain ⟨r, hr⟩ := Option.isSome_iff_exists.mp hs
  have hmem := detect_some_target_mem w h r hr
  refine ⟨r, hr, by simp [prepare_image_for_upload, hr], by simp [prepare_image_for_upload, hr],
    hmem, ?_⟩
  rcases List.mem_append.mp hmem with hm | hm
  · left
    simp [prepare_image_for_upload, hr, decide_eq_true hm, is_valid_image_dimension]
  · right
    have himg := native_not_image _ hm
    have hnat : is_valid_native_dimension r.target_w r.target_h = true := decide_eq_true hm
    simp [prepare_image_for_upload, hr, himg, hnat]

/-- Witness for C10 at 600×500, detected as 2× of 300×250. -/
theorem C10_witness :
    ∃ r, detect_retina_size 600 500 = some r ∧
      (prepare_image_for_upload prepOracleW 600 500 1000).corrected_w = r.target_w ∧
      (prepare_image_for_upload prepOracleW 600 500 1000).corrected_h = r.target_h ∧
      (r.target_w, r.target_h) ∈ allSizes ∧
      ((prepare_image_for_upload prepOracleW 600 500 1000).creative_type = CreativeType.IMAGE ∨
       (prepare_image_for_upload prepOracleW 600 500 1000).creative_type = CreativeType.NATIVE) :=
  C10_retina_lands_in_catalog prepOracleW 600 500 1000 rfl

end CreativeUploader
